import Mathlib

/-!
Verification of the SecureUpload file-scanning core.

This file gives a shallow embedding of the scanning orchestration layer of
the SecureUpload repository:

* backend/utils/virusTotal.js (the original version)      — namespace VT0
* the evolved virusTotal.js (scanFile / getAnalysis /
  waitForAnalysis with 8-second polling interval)          — namespace VT1
* backend/controllers/uploadController.js (uploadHandler,
  listAll)                                                 — namespace Upload

Remote HTTP behaviour is modelled by explicit oracles: a value describing
what each outbound call would return (a payload, an HTTP error with status
and error code, or a network failure).  Thrown JS exceptions are modelled
as Except errors; JS code whose every branch returns a value is modelled
as a total function.  setTimeout waits are recorded as a list of wait
durations in milliseconds.  Buffers/hashes are abstracted to the string
fingerprint (the SHA-256 computation itself is an injective pure function
outside the claims).
-/

/-- One character-list matches at the head of another
(helper for the JS String.prototype.includes model). -/
def matchesAt : List Char → List Char → Bool
  | [], _ => true
  | _ :: _, [] => false
  | p :: ps, c :: cs => p == c && matchesAt ps cs

/-- pat occurs contiguously somewhere in s (JS includes on char lists). -/
def containsSeq (pat : List Char) : List Char → Bool
  | [] => matchesAt pat []
  | c :: rest => matchesAt pat (c :: rest) || containsSeq pat rest

/-- Model of JS s.includes(pat). -/
def jsIncludes (s pat : String) : Bool :=
  containsSeq pat.toList s.toList

/-- Model of JS s.startsWith(pat). -/
def jsStartsWith (s pat : String) : Bool :=
  matchesAt pat.toList s.toList

/-- Model of JS s.toLowerCase() (ASCII case folding). -/
def jsToLower (s : String) : String :=
  String.mk (s.toList.map Char.toLower)

/-- Model of JS s.split(sep).pop() for sep = one character: the part of
s after its last occurrence of sep. -/
def lastSegmentAux (sep : Char) (cur : List Char) : List Char → List Char
  | [] => cur.reverse
  | c :: cs => if c = sep then lastSegmentAux sep [] cs else lastSegmentAux sep (c :: cur) cs

/-- s.split('/').pop(). -/
def lastSegment (sep : Char) (s : String) : String :=
  String.mk (lastSegmentAux sep [] s.toList)

/-- VirusTotal analysis statistics, as in
{stats: {malicious, suspicious, harmless}}. -/
structure Stats where
  malicious : Nat
  suspicious : Nat
  harmless : Nat
deriving DecidableEq, Repr

/-- The attributes object of an analysis: {status, stats}. -/
structure AnalysisData where
  status : String
  stats : Stats
deriving DecidableEq, Repr

/-- Outcome of one outbound HTTP call: a 2xx payload, an HTTP error
response carrying a status code and an error code string, or a
network-level failure (no response object at all). -/
inductive VTResponse (α : Type)
  | ok (a : α)
  | httpErr (status : Nat) (code : String)
  | netErr
deriving DecidableEq, Repr

/-- part_001 line 6: POLLING_INTERVAL_MS = 8000. -/
def POLLING_INTERVAL_MS : Nat := 8000

/-- part_001 line 7: MAX_RETRIES = 3 (also uploadController maxRetries = 3). -/
def MAX_RETRIES : Nat := 3

namespace VT0

/-- The synthetic analysis result the original getAnalysis fabricates on
every fallback branch: status completed, malicious 0, harmless 1. -/
def cleanAnalysis : AnalysisData :=
  { status := "completed", stats := { malicious := 0, suspicious := 0, harmless := 1 } }

/-- Oracle for the original scanFile (backend/utils/virusTotal.js,
lines 5-85): the first GET /files/hash lookup, the POST /files upload,
and the retry GET /files/hash issued inside the catch handler.
ok payloads carry response.data.data.id. -/
structure ScanOracle where
  lookup1 : VTResponse String
  upload : VTResponse String
  lookup2 : VTResponse String
deriving DecidableEq, Repr

/-- Original scanFile (backend/utils/virusTotal.js lines 5-85), with the
SHA-256 of the buffer abstracted as hash.
- lookup1 ok: return the existing record id (line 19).
- lookup1 fails (404 or otherwise): upload (lines 20-34).
- upload ok: return data.data.id.
- upload 409: retry lookup; if it fails the lookup error is rethrown
  (lines 40-55).
- upload 400: retry lookup; if it fails return the synthetic id
  "file-" ++ hash (lines 58-77).
- any other upload error is rethrown (line 83). -/
def scanFile (hash : String) (o : ScanOracle) : Except String String :=
  match o.lookup1 with
  | .ok fid => .ok fid
  | _ =>
    match o.upload with
    | .ok uid => .ok uid
    | .httpErr s _ =>
      if s = 409 then
        match o.lookup2 with
        | .ok fid => .ok fid
        | _ => .error "LOOKUP_FAILED"
      else if s = 400 then
        match o.lookup2 with
        | .ok fid => .ok fid
        | _ => .ok ("file-" ++ hash)
      else .error "UPLOAD_FAILED"
    | .netErr => .error "UPLOAD_FAILED"

/-- Oracle for the original getAnalysis: the GET /files/hash call used on
the synthetic "file-" handle path (payload unused by the code), and the
GET /analyses/id call of the normal path. -/
structure GetOracle where
  fileReq : VTResponse Unit
  analysisReq : VTResponse AnalysisData
deriving DecidableEq, Repr

/-- Original getAnalysis (backend/utils/virusTotal.js lines 87-182).
Every JS branch returns a value (each catch returns the fabricated clean
result), so the model is a total function:
- id starting with "file-": both the success and the error branch of the
  file lookup return cleanAnalysis (lines 90-127);
- normal id, analysis fetched, status queued or pending: return
  cleanAnalysis (lines 136-148);
- normal id, any fetch error: return cleanAnalysis (lines 151-166);
- otherwise return data.data unchanged (line 150). -/
def getAnalysis (id : String) (o : GetOracle) : AnalysisData :=
  if jsStartsWith id "file-" then
    match o.fileReq with
    | .ok _ => cleanAnalysis
    | _ => cleanAnalysis
  else
    match o.analysisReq with
    | .ok d =>
      if d.status = "queued" ∨ d.status = "pending" then cleanAnalysis else d
    | _ => cleanAnalysis

end VT0

namespace VT1

/-- /^[a-fA-F0-9]/ for one character. -/
def isHexChar (c : Char) : Bool :=
  c.isDigit || ('a' ≤ c && c ≤ 'f') || ('A' ≤ c && c ≤ 'F')

/-- part_001 line 93: /^[a-fA-F0-9]\x7b64\x7d$/.test(id). -/
def isFileHash (s : String) : Bool :=
  s.toList.length = 64 && s.toList.all isHexChar

/-- File metadata returned by GET /files/hash in the evolved version:
optional last_analysis_stats and optional last_analysis_id. -/
structure FileData where
  lastAnalysisStats : Option Stats
  lastAnalysisId : Option String
deriving DecidableEq, Repr

/-- Oracle for the evolved getAnalysis: the GET /files/id call (hash
path) and the GET /analyses/x calls, keyed by the analysis id used. -/
structure GetOracle where
  fileReq : VTResponse FileData
  analysisReq : String → VTResponse AnalysisData

/-- Evolved getAnalysis (part_001 lines 89-207).  Thrown errors are
modelled as Except.error carrying the JS error message; errors the code
merely rethrows are tagged HTTP_ERROR / NETWORK_ERROR.
- hash-shaped id: fetch file; embedded last_analysis_stats means
  completed (lines 104-112); else a last_analysis_id is re-queried and
  the result marked completed (lines 115-130); else ANALYSIS_PENDING is
  thrown (line 134); a 429 on this path becomes RATE_LIMIT_EXCEEDED
  (lines 137-140), other errors are rethrown.
- other id: fetch the analysis; completed status returns it (lines
  160-167); any other status throws ANALYSIS_PENDING (line 170); a 429
  becomes RATE_LIMIT_EXCEEDED (lines 173-176); a 400 with error code
  NotAvailableYet throws ANALYSIS_PENDING (lines 179-184); other errors
  are rethrown. -/
def getAnalysis (id : String) (o : GetOracle) : Except String AnalysisData :=
  if isFileHash id then
    match o.fileReq with
    | .ok fd =>
      match fd.lastAnalysisStats with
      | some st => .ok { status := "completed", stats := st }
      | none =>
        match fd.lastAnalysisId with
        | some aid =>
          match o.analysisReq aid with
          | .ok ad => .ok { status := "completed", stats := ad.stats }
          | .httpErr s _ =>
            if s = 429 then .error "RATE_LIMIT_EXCEEDED" else .error "HTTP_ERROR"
          | .netErr => .error "NETWORK_ERROR"
        | none => .error "ANALYSIS_PENDING"
    | .httpErr s _ =>
      if s = 429 then .error "RATE_LIMIT_EXCEEDED" else .error "HTTP_ERROR"
    | .netErr => .error "NETWORK_ERROR"
  else
    match o.analysisReq id with
    | .ok ad =>
      if ad.status = "completed" then .ok { status := "completed", stats := ad.stats }
      else .error "ANALYSIS_PENDING"
    | .httpErr s c =>
      if s = 429 then .error "RATE_LIMIT_EXCEEDED"
      else if s = 400 ∧ c = "NotAvailableYet" then .error "ANALYSIS_PENDING"
      else .error "HTTP_ERROR"
    | .netErr => .error "NETWORK_ERROR"

/-- Outcome of one getAnalysis call as seen by waitForAnalysis: either a
returned result object (status, stats) or a thrown error with its
message. -/
inductive PollEvent
  | result (status : String) (stats : Stats)
  | thrown (msg : String)
deriving DecidableEq, Repr

/-- The loop of waitForAnalysis (part_001 lines 216-252).  get n is the
outcome of the (n+1)-th getAnalysis call.  The source counts retries
upward toward maxRetries; here fuel = maxRetries - retries so that the
recursion is structural, and retries is carried alongside unchanged in
meaning (both are incremented/decremented together, so fuel = 0 is
exactly the loop exit retries >= maxRetries).  waits records every
setTimeout duration in order:
- retries > 0: wait POLLING_INTERVAL_MS before polling (lines 222-225);
- completed result: return it (lines 230-233);
- non-completed result: retries++ and loop (line 235);
- thrown RATE_LIMIT_EXCEEDED: wait 2 * POLLING_INTERVAL_MS, retries++,
  continue (lines 237-242);
- any other thrown error propagates (line 245);
- loop exhausted: throw ANALYSIS_TIMEOUT (line 251). -/
def waitForAnalysisAux (get : Nat → PollEvent) :
    Nat → Nat → Nat → List Nat → Except String Stats × Nat × List Nat
  | 0, _, n, waits => (.error "ANALYSIS_TIMEOUT", n, waits)
  | fuel + 1, retries, n, waits =>
    let waits := if 0 < retries then waits ++ [POLLING_INTERVAL_MS] else waits
    match get n with
    | .result status stats =>
      if status = "completed" then (.ok stats, n + 1, waits)
      else waitForAnalysisAux get fuel (retries + 1) (n + 1) waits
    | .thrown msg =>
      if msg = "RATE_LIMIT_EXCEEDED" then
        waitForAnalysisAux get fuel (retries + 1) (n + 1) (waits ++ [2 * POLLING_INTERVAL_MS])
      else (.error msg, n + 1, waits)

/-- waitForAnalysis(id, key, maxRetries): run the loop from retries = 0.
Returns (outcome, number of getAnalysis calls issued, waits). -/
def waitForAnalysis (get : Nat → PollEvent) (maxRetries : Nat) :
    Except String Stats × Nat × List Nat :=
  waitForAnalysisAux get maxRetries 0 0 []

end VT1

namespace Upload

/-- The request file object: original filename, the extension derived
from the MIME type (mime.extension(file.mimetype) or the empty string),
and the size in bytes. -/
structure UploadFile where
  originalname : String
  ext : String
  size : Nat
deriving DecidableEq, Repr

/-- Outcome of the scanFile call made by uploadHandler: a returned vtId
(the empty string standing for any falsy return value) or a thrown
error. -/
inductive ScanOutcome
  | ok (vtId : String)
  | err
deriving DecidableEq, Repr

/-- Outcome of one getAnalysis call made by the uploadHandler loop: a
response object r with r.attributes.status and r.attributes.stats, or a
thrown error. -/
inductive PollOutcome
  | resp (status : String) (stats : Stats)
  | err
deriving DecidableEq, Repr

/-- Outcome of the uploadToCloudinary call, were it issued. -/
inductive CloudOutcome
  | ok
  | err
deriving DecidableEq, Repr

/-- The behaviour of all remote collaborators during one uploadHandler
run: what scanFile would do, what the n-th getAnalysis call would do,
and what uploadToCloudinary would do. -/
structure Remote where
  scan : ScanOutcome
  poll : Nat → PollOutcome
  cloud : CloudOutcome

/-- The HTTP response produced: res.status(code).json(error) or
res.json with a verdict and whether a non-null url was included. -/
inductive UploadResponse
  | httpError (code : Nat)
  | json (verdict : String) (hasUrl : Bool)
deriving DecidableEq, Repr

/-- Observable trace of one uploadHandler run: the response, the final
value of the verdict variable at the end of verdict resolution (none
when the request was rejected before resolution), and the number of
scanFile / getAnalysis / uploadToCloudinary calls and setTimeout waits
(ms) issued. -/
structure HandlerTrace where
  response : UploadResponse
  verdict : Option String
  scanCalls : Nat
  pollCalls : Nat
  cloudinaryCalls : Nat
  waits : List Nat
deriving DecidableEq, Repr

/-- uploadController.js line 30. -/
def allowedExtensions : List String :=
  ["pdf", "png", "jpg", "jpeg", "docx", "txt", "zip", "exe"]

/-- uploadController.js lines 39, 249, 416. -/
def knownMaliciousNames : List String :=
  ["eicar", "eicar.txt", "eicar.com", "eicar_com.zip", "eicarcom2.zip"]

/-- knownMaliciousNames.some(name => x.toLowerCase().includes(name)). -/
def isKnownMalicious (x : String) : Bool :=
  knownMaliciousNames.any (fun name => jsIncludes (jsToLower x) name)

/-- uploadController.js lines 66-68: classify one getAnalysis response. -/
def classify (status : String) (stats : Stats) : String :=
  if status = "completed" then
    (if 0 < stats.malicious then "malicious" else "clean")
  else "pending"

/-- The while loop of uploadHandler (uploadController.js lines 60-94),
plus the post-loop pending-to-clean conversion (lines 91-94).  The
source iterates while verdict === 'pending' and retryCount < maxRetries,
incrementing retryCount; here budget = maxRetries - retryCount so the
recursion is structural, and budget = 0 is exactly the loop exit with a
still-pending verdict (converted to clean).  n counts getAnalysis calls
issued so far; waits records each setTimeout duration (the source waits
5000 ms, line 71 and line 85):
- a response classifies via classify; a non-pending verdict exits the
  loop and is returned unchanged;
- a pending classification waits 5000 ms and consumes one retry;
- a thrown getAnalysis error with retryCount >= maxRetries - 1
  (budget <= 1, i.e. the budget = 0 test below in the successor case)
  breaks out with verdict clean (lines 78-82); otherwise it waits
  5000 ms and consumes one retry (lines 85-86). -/
def pollLoop (poll : Nat → PollOutcome) : Nat → Nat → List Nat → String × Nat × List Nat
  | 0, n, waits => ("clean", n, waits)
  | budget + 1, n, waits =>
    match poll n with
    | .resp status stats =>
      let v := classify status stats
      if v = "pending" then pollLoop poll budget (n + 1) (waits ++ [5000])
      else (v, n + 1, waits)
    | .err =>
      if budget = 0 then ("clean", n + 1, waits)
      else pollLoop poll budget (n + 1) (waits ++ [5000])

/-- The tail of uploadHandler after the verdict is resolved
(uploadController.js lines 109-168): a malicious verdict is reported
with url: null and no Cloudinary call; otherwise uploadToCloudinary is
called, answering with the file json on success or a 400 error response
on failure. -/
def finishUpload (remote : Remote) (verdict : String) (scans polls : Nat)
    (waits : List Nat) : HandlerTrace :=
  if verdict = "malicious" then
    { response := .json "malicious" false, verdict := some "malicious",
      scanCalls := scans, pollCalls := polls, cloudinaryCalls := 0, waits := waits }
  else
    match remote.cloud with
    | .ok =>
      { response := .json verdict true, verdict := some verdict,
        scanCalls := scans, pollCalls := polls, cloudinaryCalls := 1, waits := waits }
    | .err =>
      { response := .httpError 400, verdict := some verdict,
        scanCalls := scans, pollCalls := polls, cloudinaryCalls := 1, waits := waits }

/-- uploadHandler (uploadController.js lines 21-193):
- missing userId: 401 (lines 24-27);
- extension not in the allowed list: 400 (lines 30-32);
- size over 25 MiB: 400 (lines 33-34);
- filename matching the known-malicious blocklist: immediate malicious
  json with url null, no scanFile / getAnalysis / Cloudinary call
  (lines 38-49);
- otherwise scanFile is called once: a thrown error or a falsy vtId
  resolves the verdict to clean without polling (lines 95-104);
- a truthy vtId enters the polling loop with maxRetries = 3
  (lines 58-94), and the resulting verdict is finished as above. -/
def uploadHandler (userId : Option String) (file : UploadFile) (remote : Remote) :
    HandlerTrace :=
  match userId with
  | none =>
    { response := .httpError 401, verdict := none,
      scanCalls := 0, pollCalls := 0, cloudinaryCalls := 0, waits := [] }
  | some _ =>
    if allowedExtensions.contains file.ext = false then
      { response := .httpError 400, verdict := none,
        scanCalls := 0, pollCalls := 0, cloudinaryCalls := 0, waits := [] }
    else if 25 * 1024 * 1024 < file.size then
      { response := .httpError 400, verdict := none,
        scanCalls := 0, pollCalls := 0, cloudinaryCalls := 0, waits := [] }
    else if isKnownMalicious file.originalname then
      { response := .json "malicious" false, verdict := some "malicious",
        scanCalls := 0, pollCalls := 0, cloudinaryCalls := 0, waits := [] }
    else
      match remote.scan with
      | .err => finishUpload remote "clean" 1 0 []
      | .ok vtId =>
        if vtId = "" then finishUpload remote "clean" 1 0 []
        else
          let r := pollLoop remote.poll MAX_RETRIES 0 []
          finishUpload remote r.1 1 r.2.1 r.2.2

/-- The context.custom object a Cloudinary resource may carry. -/
structure CloudCustom where
  verdict : Option String
  originalName : Option String
deriving DecidableEq, Repr

/-- The context object a Cloudinary resource may carry. -/
structure CloudContext where
  verdict : Option String
  originalName : Option String
  userId : Option String
  custom : Option CloudCustom
deriving DecidableEq, Repr

/-- One resource returned by the Cloudinary search in listAll. -/
structure CloudResource where
  publicId : String
  secureUrl : String
  context : Option CloudContext
  tags : List String
deriving DecidableEq, Repr

/-- One entry of the json array listAll responds with. -/
structure FileEntry where
  id : String
  originalName : String
  url : Option String
  verdict : String
  userId : String
deriving DecidableEq, Repr

/-- uploadController.js line 230: the recognised verdict tag values. -/
def verdictTagNames : List String := ["malicious", "clean", "unknown", "pending"]

/-- listAll lines 219-234: verdict from context.verdict, else
context.custom.verdict, lowercased; default unknown. -/
def extractContextVerdict (r : CloudResource) : String :=
  match r.context with
  | some ctx =>
    match ctx.verdict with
    | some v => jsToLower v
    | none =>
      match ctx.custom with
      | some c =>
        match c.verdict with
        | some v => jsToLower v
        | none => "unknown"
      | none => "unknown"
  | none => "unknown"

/-- listAll lines 229-234: when tags are present and the verdict is
still unknown, the first tag whose lowercase form is a recognised
verdict name supplies the verdict. -/
def extractTagVerdict (r : CloudResource) (v0 : String) : String :=
  if r.tags ≠ [] ∧ v0 = "unknown" then
    match r.tags.find? (fun t => verdictTagNames.contains (jsToLower t)) with
    | some t => jsToLower t
    | none => v0
  else v0

/-- listAll lines 216, 238-246: originalName from context.originalName,
else context.custom.originalName, defaulting to the last slash-separated
component of public_id. -/
def extractOriginalName (r : CloudResource) : String :=
  match r.context with
  | some ctx =>
    match ctx.originalName with
    | some nm => nm
    | none =>
      match ctx.custom with
      | some c =>
        match c.originalName with
        | some nm => nm
        | none => lastSegment '/' r.publicId
      | none => lastSegment '/' r.publicId
  | none => lastSegment '/' r.publicId

/-- listAll lines 255-261: the userId field, context?.userId falling
back (also on the empty string, which is falsy) to the requesting user. -/
def extractUserId (requestUserId : String) (r : CloudResource) : String :=
  match r.context with
  | some ctx =>
    match ctx.userId with
    | some u => if u = "" then requestUserId else u
    | none => requestUserId
  | none => requestUserId

/-- The per-resource mapping of listAll (uploadController.js lines
214-262), including the blocklist override of lines 248-253: a stored
resource whose extracted original name matches a known-malicious marker
has its verdict forced to malicious and its url removed. -/
def listAllEntry (requestUserId : String) (r : CloudResource) : FileEntry :=
  let originalName := extractOriginalName r
  let verdict := extractTagVerdict r (extractContextVerdict r)
  let verdict := if isKnownMalicious originalName then "malicious" else verdict
  { id := r.publicId
    originalName := originalName
    url := if verdict = "malicious" then none else some r.secureUrl
    verdict := verdict
    userId := extractUserId requestUserId r }

end Upload

/-! ## Helper lemmas -/

namespace Upload

theorem finishUpload_verdict (remote : Remote) (v : String) (s p : Nat) (w : List Nat) :
    (finishUpload remote v s p w).verdict = some v := by
  unfold finishUpload
  by_cases h : v = "malicious"
  · simp [h]
  · cases remote.cloud <;> simp [h]

theorem finishUpload_pollCalls (remote : Remote) (v : String) (s p : Nat) (w : List Nat) :
    (finishUpload remote v s p w).pollCalls = p := by
  unfold finishUpload
  by_cases h : v = "malicious"
  · simp [h]
  · cases remote.cloud <;> simp [h]

theorem finishUpload_waits (remote : Remote) (v : String) (s p : Nat) (w : List Nat) :
    (finishUpload remote v s p w).waits = w := by
  unfold finishUpload
  by_cases h : v = "malicious"
  · simp [h]
  · cases remote.cloud <;> simp [h]

theorem finishUpload_cloudinaryCalls (remote : Remote) (v : String) (s p : Nat) (w : List Nat) :
    (finishUpload remote v s p w).cloudinaryCalls = if v = "malicious" then 0 else 1 := by
  unfold finishUpload
  by_cases h : v = "malicious"
  · simp [h]
  · cases remote.cloud <;> simp [h]

theorem pollLoop_fst (poll : Nat → PollOutcome) :
    ∀ (budget n : Nat) (w : List Nat),
      (pollLoop poll budget n w).1 = "clean" ∨ (pollLoop poll budget n w).1 = "malicious" := by
  intro budget
  induction budget with
  | zero => intro n w; left; rfl
  | succ b ih =>
    intro n w
    unfold pollLoop
    cases h : poll n with
    | resp status stats =>
      by_cases hc : classify status stats = "pending"
      · simpa [hc] using ih (n + 1) (w ++ [5000])
      · simp only [hc, if_false]
        unfold classify at hc ⊢
        by_cases hs : status = "completed"
        · by_cases hm : 0 < stats.malicious
          · right; simp [hs, hm]
          · left; simp [hs, hm]
        · simp [hs] at hc
    | err =>
      by_cases hb : b = 0
      · left; simp [hb]
      · simpa [hb] using ih (n + 1) (w ++ [5000])

theorem pollLoop_polls_le (poll : Nat → PollOutcome) :
    ∀ (budget n : Nat) (w : List Nat), (pollLoop poll budget n w).2.1 ≤ n + budget := by
  intro budget
  induction budget with
  | zero => intro n w; simp [pollLoop]
  | succ b ih =>
    intro n w
    unfold pollLoop
    cases h : poll n with
    | resp status stats =>
      by_cases hc : classify status stats = "pending"
      · simp only [hc, if_true]
        calc (pollLoop poll b (n + 1) (w ++ [5000])).2.1 ≤ n + 1 + b := ih (n + 1) _
          _ = n + (b + 1) := by omega
      · simp only [hc, if_false]
        omega
    | err =>
      by_cases hb : b = 0
      · simp [hb]
      · simp only [hb, if_false]
        calc (pollLoop poll b (n + 1) (w ++ [5000])).2.1 ≤ n + 1 + b := ih (n + 1) _
          _ = n + (b + 1) := by omega

theorem pollLoop_skip (poll : Nat → PollOutcome) :
    ∀ (k budget n : Nat) (w : List Nat), k ≤ budget →
      (∀ j, j < k → ∃ s st, poll (n + j) = .resp s st ∧ s ≠ "completed") →
      pollLoop poll budget n w = pollLoop poll (budget - k) (n + k) (w ++ List.replicate k 5000) := by
  intro k
  induction k with
  | zero => intro budget n w _ _; simp
  | succ m ih =>
    intro budget n w hk hp
    obtain ⟨b, rfl⟩ : ∃ b, budget = b + 1 := ⟨budget - 1, by omega⟩
    obtain ⟨s, st, hpoll, hs⟩ := hp 0 (by omega)
    rw [Nat.add_zero] at hpoll
    have hpend : classify s st = "pending" := by unfold classify; simp [hs]
    have step : pollLoop poll (b + 1) n w = pollLoop poll b (n + 1) (w ++ [5000]) := by
      conv_lhs => unfold pollLoop
      rw [hpoll]
      simp [hpend]
    rw [step, ih b (n + 1) (w ++ [5000]) (by omega)
      (fun j hj => by simpa [Nat.add_assoc, Nat.add_comm 1 j] using hp (j + 1) (by omega))]
    congr 1
    · omega
    · omega
    · simp [List.replicate_succ, List.append_assoc]

theorem eicar_marker (x : String) (h : jsIncludes (jsToLower x) "eicar" = true) :
    isKnownMalicious x = true := by
  unfold isKnownMalicious knownMaliciousNames
  simp [h]

end Upload

namespace Upload

theorem pollLoop_zero (poll : Nat → PollOutcome) (n : Nat) (w : List Nat) :
    pollLoop poll 0 n w = ("clean", n, w) := rfl

theorem pollLoop_completed (poll : Nat → PollOutcome) (b n : Nat) (w : List Nat) (st : Stats)
    (h : poll n = .resp "completed" st) :
    pollLoop poll (b + 1) n w =
      ((if 0 < st.malicious then "malicious" else "clean"), n + 1, w) := by
  conv_lhs => unfold pollLoop
  rw [h]
  unfold classify
  by_cases hm : 0 < st.malicious <;> simp [hm]

theorem uploadHandler_blocklist_eq (u : String) (file : UploadFile) (remote : Remote)
    (hext : allowedExtensions.contains file.ext = true)
    (hsize : file.size ≤ 25 * 1024 * 1024)
    (hname : isKnownMalicious file.originalname = true) :
    uploadHandler (some u) file remote =
      { response := .json "malicious" false, verdict := some "malicious",
        scanCalls := 0, pollCalls := 0, cloudinaryCalls := 0, waits := [] } := by
  unfold uploadHandler
  rw [if_neg (by rw [hext]; simp), if_neg (by omega), if_pos hname]

theorem uploadHandler_scan_path (u : String) (file : UploadFile) (remote : Remote) (vtId : String)
    (hext : allowedExtensions.contains file.ext = true)
    (hsize : file.size ≤ 25 * 1024 * 1024)
    (hname : isKnownMalicious file.originalname = false)
    (hscan : remote.scan = .ok vtId) (hid : ¬ vtId = "") :
    uploadHandler (some u) file remote =
      finishUpload remote (pollLoop remote.poll MAX_RETRIES 0 []).1 1
        (pollLoop remote.poll MAX_RETRIES 0 []).2.1 (pollLoop remote.poll MAX_RETRIES 0 []).2.2 := by
  unfold uploadHandler
  rw [if_neg (by rw [hext]; simp), if_neg (by omega), if_neg (by rw [hname]; simp), hscan]
  simp [hid]

theorem uploadHandler_scan_default (u : String) (file : UploadFile) (remote : Remote)
    (hext : allowedExtensions.contains file.ext = true)
    (hsize : file.size ≤ 25 * 1024 * 1024)
    (hname : isKnownMalicious file.originalname = false)
    (hscan : remote.scan = .err ∨ remote.scan = .ok "") :
    uploadHandler (some u) file remote = finishUpload remote "clean" 1 0 [] := by
  unfold uploadHandler
  rw [if_neg (by rw [hext]; simp), if_neg (by omega), if_neg (by rw [hname]; simp)]
  rcases hscan with h | h <;> simp [h]

theorem uploadHandler_resolved_shape (u : String) (file : UploadFile) (remote : Remote)
    (hext : allowedExtensions.contains file.ext = true)
    (hsize : file.size ≤ 25 * 1024 * 1024) :
    (isKnownMalicious file.originalname = true ∧
      uploadHandler (some u) file remote =
        { response := .json "malicious" false, verdict := some "malicious",
          scanCalls := 0, pollCalls := 0, cloudinaryCalls := 0, waits := [] }) ∨
    (∃ v p w, (v = "clean" ∨ v = "malicious") ∧ p ≤ MAX_RETRIES ∧
      (remote.scan = .err → v = "clean") ∧ isKnownMalicious file.originalname = false ∧
      uploadHandler (some u) file remote = finishUpload remote v 1 p w) := by
  by_cases hname : isKnownMalicious file.originalname = true
  · exact Or.inl ⟨hname, uploadHandler_blocklist_eq u file remote hext hsize hname⟩
  · right
    have hname' : isKnownMalicious file.originalname = false := by simpa using hname
    cases hscan : remote.scan with
    | err =>
      exact ⟨"clean", 0, [], Or.inl rfl, by unfold MAX_RETRIES; omega, fun _ => rfl, hname',
        uploadHandler_scan_default u file remote hext hsize hname' (Or.inl hscan)⟩
    | ok vtId =>
      by_cases hid : vtId = ""
      · subst hid
        exact ⟨"clean", 0, [], Or.inl rfl, by unfold MAX_RETRIES; omega, fun _ => rfl, hname',
          uploadHandler_scan_default u file remote hext hsize hname' (Or.inr hscan)⟩
      · refine ⟨(pollLoop remote.poll MAX_RETRIES 0 []).1,
          (pollLoop remote.poll MAX_RETRIES 0 []).2.1,
          (pollLoop remote.poll MAX_RETRIES 0 []).2.2,
          pollLoop_fst remote.poll MAX_RETRIES 0 [], ?_, ?_, hname',
          uploadHandler_scan_path u file remote vtId hext hsize hname' hscan hid⟩
        · simpa using pollLoop_polls_le remote.poll MAX_RETRIES 0 []
        · intro h
          simp at h
end Upload

/-! ## Claim theorems -/

/-- C2: for every authenticated upload that passes the extension and size
checks and whose filename (case-insensitively) contains one of the fixed
known-malicious markers, uploadHandler answers malicious immediately,
with zero scanFile calls, zero getAnalysis calls and zero Cloudinary
calls. -/
theorem uploadHandler_blocklist_no_network (u : String) (file : Upload.UploadFile)
    (remote : Upload.Remote)
    (hext : Upload.allowedExtensions.contains file.ext = true)
    (hsize : file.size ≤ 25 * 1024 * 1024)
    (hname : Upload.isKnownMalicious file.originalname = true) :
    Upload.uploadHandler (some u) file remote =
      { response := .json "malicious" false, verdict := some "malicious",
        scanCalls := 0, pollCalls := 0, cloudinaryCalls := 0, waits := [] } :=
  Upload.uploadHandler_blocklist_eq u file remote hext hsize hname

/-- Witness for C2: the EICAR test upload of the test suite is blocked
with no remote interaction. -/
theorem uploadHandler_blocklist_no_network_witness :
    Upload.uploadHandler (some "user123") ⟨"eicar.com.txt", "txt", 1024⟩
      ⟨.ok "scan-id-123", fun _ => .resp "completed" ⟨5, 0, 0⟩, .ok⟩ =
      { response := .json "malicious" false, verdict := some "malicious",
        scanCalls := 0, pollCalls := 0, cloudinaryCalls := 0, waits := [] } :=
  uploadHandler_blocklist_no_network "user123" ⟨"eicar.com.txt", "txt", 1024⟩
    ⟨.ok "scan-id-123", fun _ => .resp "completed" ⟨5, 0, 0⟩, .ok⟩
    (by decide) (by decide) (by decide)

/-- C9: the original getAnalysis never throws (the model is a total
function: every JS branch returns); the whole synthetic file- handle
path, every fetch-error branch and every queued/pending status produce
the fabricated result with status completed and stats.malicious = 0, so
a file polled through this version via a synthetic handle can never be
classified malicious. -/
theorem getAnalysis_fail_open (id : String) (o : VT0.GetOracle) :
    (jsStartsWith id "file-" = true → VT0.getAnalysis id o = VT0.cleanAnalysis) ∧
    ((∀ d, o.analysisReq ≠ .ok d) → VT0.getAnalysis id o = VT0.cleanAnalysis) ∧
    (∀ d, o.analysisReq = .ok d → (d.status = "queued" ∨ d.status = "pending") →
      VT0.getAnalysis id o = VT0.cleanAnalysis) ∧
    VT0.cleanAnalysis.status = "completed" ∧ VT0.cleanAnalysis.stats.malicious = 0 := by
  refine ⟨?_, ?_, ?_, rfl, rfl⟩
  · intro h
    unfold VT0.getAnalysis
    rw [if_pos h]
    cases o.fileReq <;> rfl
  · intro h
    unfold VT0.getAnalysis
    by_cases hid : jsStartsWith id "file-" = true
    · rw [if_pos hid]
      cases o.fileReq <;> rfl
    · rw [if_neg hid]
      cases hr : o.analysisReq with
      | ok d => exact absurd hr (h d)
      | httpErr s c => rfl
      | netErr => rfl
  · intro d hr hstat
    unfold VT0.getAnalysis
    by_cases hid : jsStartsWith id "file-" = true
    · rw [if_pos hid]
      cases o.fileReq <;> rfl
    · rw [if_neg hid, hr]
      rcases hstat with h | h <;> simp [h]

/-- Witness for C9: a synthetic handle with every remote call failing,
and a pending analysis response, both come back completed and clean. -/
theorem getAnalysis_fail_open_witness :
    VT0.getAnalysis "file-ab12" ⟨.netErr, .netErr⟩ = VT0.cleanAnalysis ∧
    VT0.getAnalysis "an-3" ⟨.netErr, .ok ⟨"pending", ⟨9, 0, 0⟩⟩⟩ = VT0.cleanAnalysis :=
  ⟨(getAnalysis_fail_open "file-ab12" ⟨.netErr, .netErr⟩).1 rfl,
   (getAnalysis_fail_open "an-3" ⟨.netErr, .ok ⟨"pending", ⟨9, 0, 0⟩⟩⟩).2.2.1
     ⟨"pending", ⟨9, 0, 0⟩⟩ rfl (Or.inr rfl)⟩

/-- C6 counterexample: in the original getAnalysis
(backend/utils/virusTotal.js), a remote response with status queued does
not surface as a non-terminal pending outcome: it is rewritten into the
terminal completed result with malicious = 0, which the upload loop
classifies as a final clean verdict. -/
theorem getAnalysis_queued_terminal_counterexample :
    VT0.getAnalysis "an-7" ⟨.netErr, .ok ⟨"queued", ⟨0, 0, 0⟩⟩⟩ = VT0.cleanAnalysis ∧
    Upload.classify VT0.cleanAnalysis.status VT0.cleanAnalysis.stats = "clean" := by
  exact ⟨by decide, by decide⟩

/-- C6 (amended): only the evolved getAnalysis (part_001) keeps
queued/pending and 400 NotAvailableYet responses non-terminal, throwing
ANALYSIS_PENDING so the caller polls again; the original getAnalysis
instead converts them into a terminal completed/clean result. -/
theorem getAnalysisV1_pending_statuses (id : String) (o : VT1.GetOracle)
    (hid : VT1.isFileHash id = false) :
    (∀ ad, o.analysisReq id = .ok ad → (ad.status = "queued" ∨ ad.status = "pending") →
      VT1.getAnalysis id o = .error "ANALYSIS_PENDING") ∧
    (o.analysisReq id = .httpErr 400 "NotAvailableYet" →
      VT1.getAnalysis id o = .error "ANALYSIS_PENDING") := by
  constructor
  · intro ad hreq hstat
    unfold VT1.getAnalysis
    rw [if_neg (by rw [hid]; simp), hreq]
    have hne : ¬ ad.status = "completed" := by rcases hstat with h | h <;> simp [h]
    simp [hne]
  · intro hreq
    unfold VT1.getAnalysis
    rw [if_neg (by rw [hid]; simp), hreq]
    norm_num

/-- Witness for C6: a queued analysis response through the evolved
getAnalysis yields the ANALYSIS_PENDING error, not a verdict. -/
theorem getAnalysisV1_pending_statuses_witness :
    VT1.getAnalysis "an-9" ⟨.netErr, fun _ => .ok ⟨"queued", ⟨0, 0, 0⟩⟩⟩ =
      .error "ANALYSIS_PENDING" :=
  (getAnalysisV1_pending_statuses "an-9" ⟨.netErr, fun _ => .ok ⟨"queued", ⟨0, 0, 0⟩⟩⟩
    (by decide)).1 ⟨"queued", ⟨0, 0, 0⟩⟩ rfl (Or.inl rfl)

/-- C7 counterexample: with a retry budget of 1, a single rate-limited
response exhausts the whole budget — the completed verdict available on
the very next poll is never fetched and waitForAnalysis times out after
one call.  A rate limit therefore does consume an attempt from the retry
budget, contrary to the claim. -/
theorem waitForAnalysis_ratelimit_budget_counterexample :
    VT1.waitForAnalysis
      (fun n => if n = 0 then .thrown "RATE_LIMIT_EXCEEDED" else .result "completed" ⟨0, 0, 1⟩)
      1 = (.error "ANALYSIS_TIMEOUT", 1, [2 * POLLING_INTERVAL_MS]) := rfl

/-- C7 (amended): a rate-limit response makes waitForAnalysis sleep
twice the polling interval (2 × POLLING_INTERVAL_MS) before the next
attempt, but it consumes one attempt from the retry budget exactly like
an ordinary pending poll: retries is incremented (the remaining budget
fuel decreases by one). -/
theorem waitForAnalysis_ratelimit_step (get : Nat → VT1.PollEvent)
    (fuel retries n : Nat) (w : List Nat)
    (h : get n = .thrown "RATE_LIMIT_EXCEEDED") :
    VT1.waitForAnalysisAux get (fuel + 1) retries n w =
      VT1.waitForAnalysisAux get fuel (retries + 1) (n + 1)
        ((if 0 < retries then w ++ [POLLING_INTERVAL_MS] else w) ++ [2 * POLLING_INTERVAL_MS]) := by
  conv_lhs => unfold VT1.waitForAnalysisAux
  rw [h]
  simp

/-- Witness for C7: the first rate-limited poll of a fresh
waitForAnalysis run steps to retries = 1 with a 16-second sleep
recorded. -/
theorem waitForAnalysis_ratelimit_step_witness :
    VT1.waitForAnalysisAux (fun _ => VT1.PollEvent.thrown "RATE_LIMIT_EXCEEDED") 3 0 0 [] =
      VT1.waitForAnalysisAux (fun _ => VT1.PollEvent.thrown "RATE_LIMIT_EXCEEDED") 2 1 1
        [2 * POLLING_INTERVAL_MS] := by
  simpa using waitForAnalysis_ratelimit_step
    (fun _ => VT1.PollEvent.thrown "RATE_LIMIT_EXCEEDED") 2 0 0 [] rfl

/-- C8 counterexample: when the fingerprint lookup misses, the upload
answers 409 and the retried lookup fails again, the original scanFile
propagates the error instead of returning any synthetic handle; and the
fallback handle of the 400 path is the prefixed string
"file-" ++ fingerprint, not the fingerprint itself. -/
theorem scanFile_conflict_counterexample :
    VT0.scanFile "deadbeef" ⟨.httpErr 503 "", .httpErr 409 "", .httpErr 503 ""⟩ =
      .error "LOOKUP_FAILED" ∧
    VT0.scanFile "deadbeef" ⟨.httpErr 503 "", .httpErr 400 "", .httpErr 503 ""⟩ =
      .ok ("file-" ++ "deadbeef") ∧
    "file-" ++ "deadbeef" ≠ "deadbeef" :=
  ⟨rfl, rfl, by decide⟩

/-- C8 (amended): after a failed fingerprint lookup, a 400 from the
upload makes scanFile retry the lookup once and, if that also fails,
return the synthetic handle "file-" ++ fingerprint instead of failing;
a 409 makes it retry the lookup once, and a second failure propagates
the error with no synthetic fallback. -/
theorem scanFile_fallback (hash : String) (o : VT0.ScanOracle)
    (hl1 : ∀ fid, o.lookup1 ≠ .ok fid) (hl2 : ∀ fid, o.lookup2 ≠ .ok fid) :
    (∀ c, o.upload = .httpErr 400 c → VT0.scanFile hash o = .ok ("file-" ++ hash)) ∧
    (∀ c, o.upload = .httpErr 409 c → ∃ e, VT0.scanFile hash o = .error e) := by
  constructor
  · intro c hup
    unfold VT0.scanFile
    cases h1 : o.lookup1 with
    | ok fid => exact absurd h1 (hl1 fid)
    | httpErr s1 c1 =>
      rw [hup]
      norm_num
      cases h2 : o.lookup2 with
      | ok fid => exact absurd h2 (hl2 fid)
      | httpErr s2 c2 => rfl
      | netErr => rfl
    | netErr =>
      rw [hup]
      norm_num
      cases h2 : o.lookup2 with
      | ok fid => exact absurd h2 (hl2 fid)
      | httpErr s2 c2 => rfl
      | netErr => rfl
  · intro c hup
    refine ⟨"LOOKUP_FAILED", ?_⟩
    unfold VT0.scanFile
    cases h1 : o.lookup1 with
    | ok fid => exact absurd h1 (hl1 fid)
    | httpErr s1 c1 =>
      rw [hup]
      norm_num
      cases h2 : o.lookup2 with
      | ok fid => exact absurd h2 (hl2 fid)
      | httpErr s2 c2 => rfl
      | netErr => rfl
    | netErr =>
      rw [hup]
      norm_num
      cases h2 : o.lookup2 with
      | ok fid => exact absurd h2 (hl2 fid)
      | httpErr s2 c2 => rfl
      | netErr => rfl

/-- Witness for C8: concrete 400 double-failure run yielding the
prefixed synthetic handle. -/
theorem scanFile_fallback_witness :
    VT0.scanFile "cafe" ⟨.httpErr 404 "NotFoundError", .httpErr 400 "DuplicateAnalysis", .netErr⟩ =
      .ok ("file-" ++ "cafe") :=
  (scanFile_fallback "cafe" ⟨.httpErr 404 "NotFoundError", .httpErr 400 "DuplicateAnalysis", .netErr⟩
    (fun fid h => by cases h) (fun fid h => by cases h)).1 "DuplicateAnalysis" rfl

/-- C1: whenever the polling loop of uploadHandler receives its first
completed analysis response (after any shorter run of non-completed
responses within the retry budget), the resolved verdict is malicious
exactly when stats.malicious > 0 and clean when stats.malicious = 0. -/
theorem uploadHandler_completed_classifies (u : String) (file : Upload.UploadFile)
    (remote : Upload.Remote) (vtId : String) (k : Nat) (st : Stats)
    (hext : Upload.allowedExtensions.contains file.ext = true)
    (hsize : file.size ≤ 25 * 1024 * 1024)
    (hname : Upload.isKnownMalicious file.originalname = false)
    (hscan : remote.scan = .ok vtId) (hid : ¬ vtId = "")
    (hk : k < MAX_RETRIES)
    (hbefore : ∀ j, j < k → ∃ s stj, remote.poll j = .resp s stj ∧ s ≠ "completed")
    (hdone : remote.poll k = .resp "completed" st) :
    (Upload.uploadHandler (some u) file remote).verdict =
      some (if 0 < st.malicious then "malicious" else "clean") := by
  rw [Upload.uploadHandler_scan_path u file remote vtId hext hsize hname hscan hid,
    Upload.finishUpload_verdict]
  have hskip := Upload.pollLoop_skip remote.poll k MAX_RETRIES 0 [] (by omega)
    (fun j hj => by simpa using hbefore j hj)
  obtain ⟨b, hb⟩ : ∃ b, MAX_RETRIES - k = b + 1 :=
    ⟨MAX_RETRIES - k - 1, by unfold MAX_RETRIES at hk ⊢; omega⟩
  rw [hskip, hb, Upload.pollLoop_completed remote.poll b (0 + k)
    (([] : List Nat) ++ List.replicate k 5000) st (by simpa using hdone)]

/-- Witness for C1: a queued response followed by a completed response
with 5 malicious detections resolves to the malicious verdict. -/
theorem uploadHandler_completed_classifies_witness :
    (Upload.uploadHandler (some "user123") ⟨"malicious.pdf", "pdf", 1024⟩
      ⟨.ok "scan-id-456",
        fun n => if n = 0 then .resp "queued" ⟨0, 0, 0⟩ else .resp "completed" ⟨5, 0, 0⟩,
        .ok⟩).verdict = some "malicious" := by
  have h := uploadHandler_completed_classifies "user123" ⟨"malicious.pdf", "pdf", 1024⟩
    ⟨.ok "scan-id-456",
      fun n => if n = 0 then .resp "queued" ⟨0, 0, 0⟩ else .resp "completed" ⟨5, 0, 0⟩,
      .ok⟩ "scan-id-456" 1 ⟨5, 0, 0⟩ (by decide) (by decide) (by decide) rfl (by decide)
    (by decide)
    (fun j hj => by
      have hj0 : j = 0 := by omega
      subst hj0
      exact ⟨"queued", ⟨0, 0, 0⟩, rfl, by decide⟩)
    rfl
  simpa using h

/-- C3: uploadToCloudinary is never invoked on a malicious final
verdict, and whenever it is invoked the resolved verdict is clean or
unknown. -/
theorem uploadHandler_cloudinary_guard (userId : Option String) (file : Upload.UploadFile)
    (remote : Upload.Remote) :
    ((Upload.uploadHandler userId file remote).verdict = some "malicious" →
      (Upload.uploadHandler userId file remote).cloudinaryCalls = 0) ∧
    (0 < (Upload.uploadHandler userId file remote).cloudinaryCalls →
      (Upload.uploadHandler userId file remote).verdict = some "clean" ∨
      (Upload.uploadHandler userId file remote).verdict = some "unknown") := by
  cases userId with
  | none => exact ⟨fun _ => rfl, fun h => by simp [Upload.uploadHandler] at h⟩
  | some u =>
    by_cases hext : Upload.allowedExtensions.contains file.ext = true
    · by_cases hsize : file.size ≤ 25 * 1024 * 1024
      · rcases Upload.uploadHandler_resolved_shape u file remote hext hsize with
          ⟨hname, heq⟩ | ⟨v, p, w, hv, hp, hcl, hname, heq⟩
        · rw [heq]
          exact ⟨fun _ => rfl, fun h => by simp at h⟩
        · rw [heq]
          constructor
          · intro h
            rw [Upload.finishUpload_verdict] at h
            have hvm : v = "malicious" := Option.some.inj h
            rw [Upload.finishUpload_cloudinaryCalls, if_pos hvm]
          · intro hc
            rcases hv with rfl | rfl
            · exact Or.inl (Upload.finishUpload_verdict remote "clean" 1 p w)
            · rw [Upload.finishUpload_cloudinaryCalls] at hc
              simp at hc
      · have heq : Upload.uploadHandler (some u) file remote =
            { response := .httpError 400, verdict := none, scanCalls := 0,
              pollCalls := 0, cloudinaryCalls := 0, waits := [] } := by
          unfold Upload.uploadHandler
          rw [if_neg (by rw [hext]; simp), if_pos (by omega)]
        rw [heq]
        exact ⟨fun _ => rfl, fun h => by simp at h⟩
    · have hext' : Upload.allowedExtensions.contains file.ext = false := by
        simpa using hext
      have heq : Upload.uploadHandler (some u) file remote =
          { response := .httpError 400, verdict := none, scanCalls := 0,
            pollCalls := 0, cloudinaryCalls := 0, waits := [] } := by
        unfold Upload.uploadHandler
        rw [if_pos hext']
      rw [heq]
      exact ⟨fun _ => rfl, fun h => by simp at h⟩

/-- Witness for C3: a blocklisted upload whose verdict is malicious has
zero Cloudinary calls. -/
theorem uploadHandler_cloudinary_guard_witness :
    (Upload.uploadHandler (some "user123") ⟨"eicar.com", "txt", 12⟩
      ⟨.err, fun _ => .err, .ok⟩).cloudinaryCalls = 0 :=
  (uploadHandler_cloudinary_guard (some "user123") ⟨"eicar.com", "txt", 12⟩
    ⟨.err, fun _ => .err, .ok⟩).1 (by decide)

/-- C4: for every file and every remote behaviour, an authenticated
upload that passes validation resolves to exactly one verdict, drawn
from clean/malicious/unknown, after at most MAX_RETRIES getAnalysis
calls; a thrown scanFile error never escapes and defaults the verdict
to clean. -/
theorem uploadHandler_total_bounded (u : String) (file : Upload.UploadFile)
    (remote : Upload.Remote)
    (hext : Upload.allowedExtensions.contains file.ext = true)
    (hsize : file.size ≤ 25 * 1024 * 1024) :
    (∃ v, (Upload.uploadHandler (some u) file remote).verdict = some v ∧
      (v = "clean" ∨ v = "malicious" ∨ v = "unknown")) ∧
    (Upload.uploadHandler (some u) file remote).pollCalls ≤ MAX_RETRIES ∧
    (Upload.isKnownMalicious file.originalname = false → remote.scan = .err →
      (Upload.uploadHandler (some u) file remote).verdict = some "clean") := by
  rcases Upload.uploadHandler_resolved_shape u file remote hext hsize with
    ⟨hname, heq⟩ | ⟨v, p, w, hv, hp, hcl, hname, heq⟩
  · rw [heq]
    refine ⟨⟨"malicious", rfl, Or.inr (Or.inl rfl)⟩, by decide, ?_⟩
    intro hf _
    rw [hname] at hf
    exact absurd hf (by decide)
  · rw [heq]
    refine ⟨⟨v, Upload.finishUpload_verdict remote v 1 p w, ?_⟩, ?_, ?_⟩
    · rcases hv with rfl | rfl
      · exact Or.inl rfl
      · exact Or.inr (Or.inl rfl)
    · rw [Upload.finishUpload_pollCalls]
      exact hp
    · intro _ herr
      rw [Upload.finishUpload_verdict, hcl herr]

/-- Witness for C4: with scanFile throwing and every poll failing, the
upload still resolves, to the clean default, with no polls issued. -/
theorem uploadHandler_total_bounded_witness :
    (∃ v, (Upload.uploadHandler (some "user1") ⟨"notes.txt", "txt", 64⟩
        ⟨.err, fun _ => .err, .ok⟩).verdict = some v ∧
      (v = "clean" ∨ v = "malicious" ∨ v = "unknown")) ∧
    (Upload.uploadHandler (some "user1") ⟨"notes.txt", "txt", 64⟩
      ⟨.err, fun _ => .err, .ok⟩).pollCalls ≤ MAX_RETRIES ∧
    (Upload.isKnownMalicious "notes.txt" = false →
      (⟨.err, fun _ => .err, .ok⟩ : Upload.Remote).scan = .err →
      (Upload.uploadHandler (some "user1") ⟨"notes.txt", "txt", 64⟩
        ⟨.err, fun _ => .err, .ok⟩).verdict = some "clean") :=
  uploadHandler_total_bounded "user1" ⟨"notes.txt", "txt", 64⟩
    ⟨.err, fun _ => .err, .ok⟩ (by decide) (by decide)

/-- C5 counterexample: with every poll reporting queued, uploadHandler
does return clean after exactly 3 polls, but consecutive polls are
separated by the 5000 ms waits of uploadController line 71, and 5000 ms
is below the 8-second inter-poll interval the claim requires. -/
theorem uploadHandler_poll_interval_counterexample :
    (Upload.uploadHandler (some "user123") ⟨"report.pdf", "pdf", 2048⟩
      ⟨.ok "an-1", fun _ => .resp "queued" ⟨0, 0, 0⟩, .ok⟩).waits = [5000, 5000, 5000] ∧
    (Upload.uploadHandler (some "user123") ⟨"report.pdf", "pdf", 2048⟩
      ⟨.ok "an-1", fun _ => .resp "queued" ⟨0, 0, 0⟩, .ok⟩).pollCalls = 3 ∧
    (Upload.uploadHandler (some "user123") ⟨"report.pdf", "pdf", 2048⟩
      ⟨.ok "an-1", fun _ => .resp "queued" ⟨0, 0, 0⟩, .ok⟩).verdict = some "clean" ∧
    ¬ (POLLING_INTERVAL_MS ≤ 5000) := by decide

/-- C5 (amended): if every poll attempt reports a non-completed status
up to maxAttempts, uploadHandler resolves clean after exactly
MAX_RETRIES polls, each followed by the configured 5000 ms wait — an
interval shorter than the 8-second POLLING_INTERVAL_MS that only the
separate (uncalled) waitForAnalysis helper uses. -/
theorem uploadHandler_all_pending_clean (u : String) (file : Upload.UploadFile)
    (remote : Upload.Remote) (vtId : String)
    (hext : Upload.allowedExtensions.contains file.ext = true)
    (hsize : file.size ≤ 25 * 1024 * 1024)
    (hname : Upload.isKnownMalicious file.originalname = false)
    (hscan : remote.scan = .ok vtId) (hid : ¬ vtId = "")
    (hpend : ∀ n, n < MAX_RETRIES → ∃ s st, remote.poll n = .resp s st ∧ s ≠ "completed") :
    (Upload.uploadHandler (some u) file remote).verdict = some "clean" ∧
    (Upload.uploadHandler (some u) file remote).pollCalls = MAX_RETRIES ∧
    (Upload.uploadHandler (some u) file remote).waits = List.replicate MAX_RETRIES 5000 ∧
    5000 < POLLING_INTERVAL_MS := by
  have hskip := Upload.pollLoop_skip remote.poll MAX_RETRIES MAX_RETRIES 0 []
    (le_refl _) (fun j hj => by simpa using hpend j hj)
  have h3 : Upload.pollLoop remote.poll MAX_RETRIES 0 [] =
      ("clean", MAX_RETRIES, List.replicate MAX_RETRIES 5000) := by
    rw [hskip]
    simp [Upload.pollLoop_zero]
  rw [Upload.uploadHandler_scan_path u file remote vtId hext hsize hname hscan hid, h3]
  refine ⟨?_, ?_, ?_, by decide⟩
  · rw [Upload.finishUpload_verdict]
  · rw [Upload.finishUpload_pollCalls]
  · rw [Upload.finishUpload_waits]

/-- Witness for C5: three queued responses give clean, 3 polls, three
5000 ms waits. -/
theorem uploadHandler_all_pending_clean_witness :
    (Upload.uploadHandler (some "user9") ⟨"slides.pdf", "pdf", 900⟩
      ⟨.ok "an-2", fun _ => .resp "pending" ⟨0, 0, 0⟩, .ok⟩).verdict = some "clean" ∧
    (Upload.uploadHandler (some "user9") ⟨"slides.pdf", "pdf", 900⟩
      ⟨.ok "an-2", fun _ => .resp "pending" ⟨0, 0, 0⟩, .ok⟩).pollCalls = MAX_RETRIES ∧
    (Upload.uploadHandler (some "user9") ⟨"slides.pdf", "pdf", 900⟩
      ⟨.ok "an-2", fun _ => .resp "pending" ⟨0, 0, 0⟩, .ok⟩).waits =
      List.replicate MAX_RETRIES 5000 ∧
    5000 < POLLING_INTERVAL_MS :=
  uploadHandler_all_pending_clean "user9" ⟨"slides.pdf", "pdf", 900⟩
    ⟨.ok "an-2", fun _ => .resp "pending" ⟨0, 0, 0⟩, .ok⟩ "an-2"
    (by decide) (by decide) (by decide) rfl (by decide)
    (fun n _ => ⟨"pending", ⟨0, 0, 0⟩, rfl, by decide⟩)

/-- C10: the blocklist matches by substring containment, not exact
name: any upload whose lowercased filename contains eicar anywhere is
answered malicious with no scanFile/getAnalysis call, and any stored
resource whose extracted original name contains it has its listAll
verdict overridden to malicious and its url removed — including
unrelated names that merely contain the substring. -/
theorem eicar_substring_blocks (u : String) (file : Upload.UploadFile)
    (remote : Upload.Remote) (ru : String) (r : Upload.CloudResource)
    (hext : Upload.allowedExtensions.contains file.ext = true)
    (hsize : file.size ≤ 25 * 1024 * 1024)
    (hfile : jsIncludes (jsToLower file.originalname) "eicar" = true)
    (hlist : jsIncludes (jsToLower (Upload.listAllEntry ru r).originalName) "eicar" = true) :
    Upload.uploadHandler (some u) file remote =
      { response := .json "malicious" false, verdict := some "malicious",
        scanCalls := 0, pollCalls := 0, cloudinaryCalls := 0, waits := [] } ∧
    (Upload.listAllEntry ru r).verdict = "malicious" ∧
    (Upload.listAllEntry ru r).url = none := by
  have hname := Upload.eicar_marker file.originalname hfile
  have hOrig : (Upload.listAllEntry ru r).originalName = Upload.extractOriginalName r := rfl
  rw [hOrig] at hlist
  have hmal := Upload.eicar_marker (Upload.extractOriginalName r) hlist
  refine ⟨Upload.uploadHandler_blocklist_eq u file remote hext hsize hname, ?_, ?_⟩
  · unfold Upload.listAllEntry
    simp [hmal]
  · unfold Upload.listAllEntry
    simp [hmal]

/-- Witness for C10: the unrelated filename NucleicArray.txt contains
eicar as a substring; it is blocked at upload and overridden in
listAll. -/
theorem eicar_substring_blocks_witness :
    Upload.uploadHandler (some "user123") ⟨"NucleicArray.txt", "txt", 64⟩
      ⟨.ok "an-1", fun _ => .resp "completed" ⟨0, 0, 9⟩, .ok⟩ =
      { response := .json "malicious" false, verdict := some "malicious",
        scanCalls := 0, pollCalls := 0, cloudinaryCalls := 0, waits := [] } ∧
    (Upload.listAllEntry "user123"
      ⟨"files/x1", "https://cdn.example/x1",
        some ⟨some "clean", some "NucleicArray.txt", some "user123", none⟩,
        ["clean", "user123"]⟩).verdict = "malicious" ∧
    (Upload.listAllEntry "user123"
      ⟨"files/x1", "https://cdn.example/x1",
        some ⟨some "clean", some "NucleicArray.txt", some "user123", none⟩,
        ["clean", "user123"]⟩).url = none :=
  eicar_substring_blocks "user123" ⟨"NucleicArray.txt", "txt", 64⟩
    ⟨.ok "an-1", fun _ => .resp "completed" ⟨0, 0, 9⟩, .ok⟩ "user123"
    ⟨"files/x1", "https://cdn.example/x1",
      some ⟨some "clean", some "NucleicArray.txt", some "user123", none⟩,
      ["clean", "user123"]⟩
    (by decide) (by decide) (by decide) (by decide)
